import Mathlib

/-!
Verification of the projectM per-pixel mesh core against its specification.

The numeric embedding models the C++ code over the rationals: machine reals
are treated as exact real numbers (the spec phrases the quantization contract
over real numbers), `std::fmod` is the truncated (toward-zero) remainder, and
the Euclidean modulus of the spec is the floor-based remainder.
-/

namespace ProjectM

/-- Truncation toward zero, the rounding used by C `std::fmod`:
`trunc q` is `⌊q⌋` for non-negative `q` and `⌈q⌉` for negative `q`. -/
def rtrunc (q : ℚ) : ℤ := if 0 ≤ q then ⌊q⌋ else ⌈q⌉

/-- `std::fmod x y`: the remainder of `x / y` rounded toward zero,
`x - y * trunc (x / y)`. Its sign follows the sign of `x`. -/
def fmod (x y : ℚ) : ℚ := x - y * (rtrunc (x / y) : ℚ)

/-- The Euclidean (always-non-negative for positive modulus) modulus used by
the specification: `x - y * ⌊x / y⌋`. -/
def emod (x y : ℚ) : ℚ := x - y * (⌊x / y⌋ : ℚ)

/-- The local constant `m = 256.0f / 255.0f` of `color_modulo`
(RenderItem.hpp, line 40). -/
def colorModuloM : ℚ := 256 / 255

/-- `color_modulo(float)` from RenderItem.hpp, lines 38–42:
`std::fmod(std::fmod(x, m) + m, m)` with `m = 256/255`. -/
def color_modulo (x : ℚ) : ℚ :=
  fmod (fmod x colorModuloM + colorModuloM) colorModuloM

/-- The reference definition from the specification (§4.2): with
`m = 256/255`, `quantize(x) = ((x mod m) + m) mod m` where `mod` is the
Euclidean modulus. Written from the spec's words, to be compared with
`color_modulo` (which is written from the source). -/
def quantizeSpec (x : ℚ) : ℚ :=
  emod (emod x colorModuloM + colorModuloM) colorModuloM

/-- `color_modulo(double)` from RenderItem.hpp, lines 44–48: the input is
first narrowed to single precision, then the float overload is applied.
The double-to-float narrowing is abstracted as the parameter `narrow`,
since the embedding models exact real-number semantics. -/
def color_modulo_double (narrow : ℚ → ℚ) (x : ℚ) : ℚ :=
  color_modulo (narrow x)

/-- The inputs `InitializeMesh` reads from the external `PresetState`
(spec §4.3 / §6): requested grid resolution and current viewport size. -/
structure PresetStateInputs where
  gridX : Nat
  gridY : Nat
  viewportWidth : Nat
  viewportHeight : Nat
deriving DecidableEq

/-- The observable state of `PerPixelMesh` (PerPixelMesh.hpp, lines 119–134):
current grid resolution, last-seen viewport size, and the element counts of
the five GPU vertex buffers (radius/angle, zoom/rot/warp, center, distance,
stretch). `allocCount` is the allocation counter the spec names as the test
observable for reallocation; `staticValuesFresh` records whether the static
radius/angle values were recomputed by the last call. -/
structure PerPixelMeshState where
  gridSizeX : Nat
  gridSizeY : Nat
  viewportWidth : Nat
  viewportHeight : Nat
  radiusAngleCount : Nat
  zoomRotWarpCount : Nat
  centerCount : Nat
  distanceCount : Nat
  stretchCount : Nat
  allocCount : Nat
  staticValuesFresh : Bool
deriving DecidableEq

/-- A fresh `PerPixelMesh`: all members value-initialized (the `{}`
initializers of PerPixelMesh.hpp), so resolution 0×0 and empty buffers. -/
def PerPixelMeshState.initial : PerPixelMeshState :=
  ⟨0, 0, 0, 0, 0, 0, 0, 0, 0, 0, false⟩

/-- Modelled from the spec: `PerPixelMesh::InitializeMesh` (its definition
is not under src/; only the declaration in PerPixelMesh.hpp is). Spec §4.3:
read (X, Y) and the viewport from the preset state; if the resolution
changed, reallocate all five buffers to X·Y elements (counted by
`allocCount`); if the resolution or the viewport changed, recompute the
static radius/angle values. -/
def InitializeMesh (p : PresetStateInputs) (s : PerPixelMeshState) :
    PerPixelMeshState :=
  let resolutionChanged : Bool :=
    p.gridX != s.gridSizeX || p.gridY != s.gridSizeY
  let viewportChanged : Bool :=
    p.viewportWidth != s.viewportWidth ||
      p.viewportHeight != s.viewportHeight
  let n := p.gridX * p.gridY
  let s1 :=
    if resolutionChanged then
      { s with
        gridSizeX := p.gridX
        gridSizeY := p.gridY
        radiusAngleCount := n
        zoomRotWarpCount := n
        centerCount := n
        distanceCount := n
        stretchCount := n
        allocCount := s.allocCount + 1 }
    else s
  if resolutionChanged || viewportChanged then
    { s1 with
      viewportWidth := p.viewportWidth
      viewportHeight := p.viewportHeight
      staticValuesFresh := true }
  else
    { s1 with staticValuesFresh := false }

/-- Modelled from the spec: `PerPixelMesh::CalculateMesh` writes per-vertex
values into the existing buffer slots; it neither resizes nor reallocates
any buffer, so on the observable state tracked here it changes nothing. -/
def CalculateMesh (s : PerPixelMeshState) : PerPixelMeshState := s

/-- Modelled from the spec: the buffer-state effect of
`PerPixelMesh::WarpedBlit` — it binds and draws, but never touches buffer
sizes or allocation. -/
def WarpedBlitState (s : PerPixelMeshState) : PerPixelMeshState := s

/-- Modelled from the spec: `PerPixelMesh::Draw` orchestrates mesh
(re)initialization, per-vertex evaluation and the warped draw, in that
order (spec §4.3). -/
def MeshDraw (p : PresetStateInputs) (s : PerPixelMeshState) :
    PerPixelMeshState :=
  WarpedBlitState (CalculateMesh (InitializeMesh p s))

/-- The five buffers all hold exactly `gridSizeX * gridSizeY` elements —
the sizing invariant of PerPixelMesh (spec §3). -/
def sizeInvariant (s : PerPixelMeshState) : Prop :=
  s.radiusAngleCount = s.gridSizeX * s.gridSizeY ∧
  s.zoomRotWarpCount = s.gridSizeX * s.gridSizeY ∧
  s.centerCount = s.gridSizeX * s.gridSizeY ∧
  s.distanceCount = s.gridSizeX * s.gridSizeY ∧
  s.stretchCount = s.gridSizeX * s.gridSizeY

instance (s : PerPixelMeshState) : Decidable (sizeInvariant s) := by
  unfold sizeInvariant
  infer_instance

/-- Whether a custom warp shader is loaded and compiled
(the state behind `m_warpShader` of PerPixelMesh.hpp). -/
structure WarpShaderState where
  customShaderLoaded : Bool
  customShaderCompiled : Bool
deriving DecidableEq

/-- Outcome of attempting to compile the custom warp shader. -/
inductive CompileOutcome where
  | ok
  | compileError
deriving DecidableEq

/-- Errors a mesh operation could surface to its caller. -/
inductive RenderError where
  | shaderCompilationFailed
deriving DecidableEq

/-- Modelled from the spec: `PerPixelMesh::CompileWarpShader` (definition
not under src/). Spec §4.3 / §7: compilation failure is reported without
crashing and downgrades to the default shader path; the `Except` return
makes a raised error explicit, and no branch returns `.error`. -/
def CompileWarpShader (outcome : CompileOutcome) (s : WarpShaderState) :
    Except RenderError WarpShaderState :=
  match outcome with
  | .ok => .ok { s with customShaderCompiled := s.customShaderLoaded }
  | .compileError => .ok { s with customShaderCompiled := false }

/-- The two rendering paths of `WarpedBlit`. -/
inductive DrawPath where
  | customShader
  | defaultShader
deriving DecidableEq

/-- Modelled from the spec: the shader-path choice of
`PerPixelMesh::WarpedBlit` — the custom path is taken exactly when a valid
compiled custom warp shader is present, otherwise the default warp shader
(built lazily by `GetDefaultWarpShader`) is used. -/
def WarpedBlitPath (s : WarpShaderState) : DrawPath :=
  if s.customShaderLoaded && s.customShaderCompiled then .customShader
  else .defaultShader

/-- Modelled from the spec: the rendering outcome of `PerPixelMesh::Draw`
given the shader state — the draw renders through one of the two paths and
never surfaces a shader error. -/
def DrawRender (s : WarpShaderState) : Except RenderError DrawPath :=
  .ok (WarpedBlitPath s)

/-- Texture addressing modes (the relevant GL wrap values). -/
inductive TextureWrapMode where
  | clampToEdge
  | repeatWrap
deriving DecidableEq

/-- Texture filtering modes (the relevant GL filter values). -/
inductive TextureFilter where
  | linear
  | nearest
deriving DecidableEq

/-- A texture sampler configuration: wrap mode and filter. -/
structure Sampler where
  wrapMode : TextureWrapMode
  filter : TextureFilter
deriving DecidableEq

/-- `m_perPixelSampler` from PerPixelMesh.hpp, line 134: constructed with
`GL_CLAMP_TO_EDGE` and `GL_LINEAR`. -/
def perPixelSampler : Sampler := ⟨.clampToEdge, .linear⟩

/-- Modelled from the spec: the sampler `WarpedBlit` binds for the
previous-frame texture in each rendering path — both the custom-shader and
the default-shader path sample through `m_perPixelSampler` (spec §4.3). -/
def samplerForPath : DrawPath → Sampler
  | .customShader => perPixelSampler
  | .defaultShader => perPixelSampler

/-- The default implementation of `RenderItem::Init` (RenderItem.hpp,
line 80): an empty body, modelled as the identity on any backend state. -/
def RenderItemInitDefault {σ : Type} (s : σ) : σ := s

/-- `PresetTransition` state (PresetTransition.cpp): the transition shader
reference, the duration and start time, and the four random values drawn at
construction. -/
structure PresetTransitionState where
  transitionShader : Nat
  durationSeconds : ℚ
  transitionStartTime : ℚ
  staticRandomValues : Fin 4 → Nat

/-- Rendering commands a transition draw could emit; the stub emits none. -/
inductive TransitionRenderCommand where
  | blit
deriving DecidableEq

/-- `PresetTransition::Draw` from PresetTransition.cpp, lines 35–42: the
body is empty (a stub — OpenGL-specific rendering lives in the backend
implementation), so it emits no rendering commands and returns the
transition state unchanged, whatever the presets, context, audio data and
frame time are. -/
def PresetTransitionDraw (t : PresetTransitionState)
    (oldPreset newPreset : Nat) (renderContext : Nat)
    (audioData : List ℚ) (currentFrameTime : ℚ) :
    PresetTransitionState × List TransitionRenderCommand :=
  (t, [])

/-- `PresetTransition::IsDone` from PresetTransition.cpp, lines 24–28. -/
def PresetTransitionIsDone (t : PresetTransitionState)
    (currentFrameTime : ℚ) : Bool :=
  decide (t.durationSeconds ≤ 0 ∨
    currentFrameTime - t.transitionStartTime ≥ t.durationSeconds)

/-- `PresetTransition::Progress` from PresetTransition.cpp, lines 30–33. -/
def PresetTransitionProgress (t : PresetTransitionState)
    (currentFrameTime : ℚ) : ℚ :=
  min (max ((currentFrameTime - t.transitionStartTime) / t.durationSeconds)
    0) 1

theorem colorModuloM_pos : (0 : ℚ) < colorModuloM := by
  unfold colorModuloM; norm_num

theorem emod_eq_fract (x y : ℚ) (hy : y ≠ 0) :
    emod x y = y * Int.fract (x / y) := by
  unfold emod
  rw [Int.fract, mul_sub, mul_div_cancel₀ x hy]

theorem emod_nonneg (x y : ℚ) (hy : 0 < y) : 0 ≤ emod x y := by
  rw [emod_eq_fract x y hy.ne']
  exact mul_nonneg hy.le (Int.fract_nonneg _)

theorem emod_lt (x y : ℚ) (hy : 0 < y) : emod x y < y := by
  rw [emod_eq_fract x y hy.ne']
  calc y * Int.fract (x / y) < y * 1 :=
        mul_lt_mul_of_pos_left (Int.fract_lt_one _) hy
    _ = y := mul_one y

theorem emod_eq_self (x y : ℚ) (hy : 0 < y) (h0 : 0 ≤ x) (h1 : x < y) :
    emod x y = x := by
  unfold emod
  have hfloor : ⌊x / y⌋ = 0 := by
    rw [Int.floor_eq_zero_iff]
    constructor
    · exact div_nonneg h0 hy.le
    · rw [div_lt_one hy]; exact h1
  rw [hfloor]
  push_cast
  ring

theorem emod_add_self (x y : ℚ) (hy : 0 < y) (h0 : 0 ≤ x) (h1 : x < y) :
    emod (x + y) y = x := by
  unfold emod
  have hdiv : (x + y) / y = x / y + 1 := by
    field_simp
  have hfloor : ⌊(x + y) / y⌋ = 1 := by
    rw [hdiv, Int.floor_add_one]
    have : ⌊x / y⌋ = 0 := by
      rw [Int.floor_eq_zero_iff]
      constructor
      · exact div_nonneg h0 hy.le
      · rw [div_lt_one hy]; exact h1
    omega
  rw [hfloor]
  push_cast
  ring

theorem rtrunc_cases (q : ℚ) : rtrunc q = ⌊q⌋ ∨ rtrunc q = ⌊q⌋ + 1 := by
  unfold rtrunc
  split
  · exact Or.inl rfl
  · have h1 := Int.floor_le_ceil q
    have h2 := Int.ceil_le_floor_add_one q
    omega

theorem fmod_cases (x y : ℚ) :
    fmod x y = emod x y ∨ fmod x y = emod x y - y := by
  unfold fmod emod
  rcases rtrunc_cases (x / y) with h | h <;> rw [h]
  · exact Or.inl rfl
  · right
    push_cast
    ring

theorem fmod_eq_emod_of_nonneg (x y : ℚ) (hy : 0 < y) (hx : 0 ≤ x) :
    fmod x y = emod x y := by
  unfold fmod emod rtrunc
  rw [if_pos (div_nonneg hx hy.le)]

theorem color_modulo_eq_emod (x : ℚ) :
    color_modulo x = emod x colorModuloM := by
  have hm := colorModuloM_pos
  have hr0 := emod_nonneg x colorModuloM hm
  have hr1 := emod_lt x colorModuloM hm
  unfold color_modulo
  rcases fmod_cases x colorModuloM with h | h <;> rw [h]
  · rw [fmod_eq_emod_of_nonneg _ _ hm (by linarith)]
    exact emod_add_self _ _ hm hr0 hr1
  · have hcollapse : emod x colorModuloM - colorModuloM + colorModuloM
        = emod x colorModuloM := by ring
    rw [hcollapse, fmod_eq_emod_of_nonneg _ _ hm hr0]
    exact emod_eq_self _ _ hm hr0 hr1

theorem quantizeSpec_eq_emod (x : ℚ) :
    quantizeSpec x = emod x colorModuloM := by
  have hm := colorModuloM_pos
  unfold quantizeSpec
  exact emod_add_self _ _ hm (emod_nonneg x colorModuloM hm)
    (emod_lt x colorModuloM hm)

/-- C1: the legacy color quantization function `color_modulo` equals the
reference definition of the spec: for every real input `x`, with
`m = 256/255`, `color_modulo x = ((x mod m) + m) mod m`, where `mod` is the
Euclidean (always-non-negative) modulus. -/
theorem color_modulo_eq_quantizeSpec (x : ℚ) :
    color_modulo x = quantizeSpec x := by
  rw [color_modulo_eq_emod, quantizeSpec_eq_emod]

/-- C2: the quantization is idempotent: for every real `x`,
`color_modulo (color_modulo x) = color_modulo x` (exactly, in the
real-number model). -/
theorem color_modulo_idempotent (x : ℚ) :
    color_modulo (color_modulo x) = color_modulo x := by
  have hm := colorModuloM_pos
  rw [color_modulo_eq_emod x, color_modulo_eq_emod (emod x colorModuloM)]
  exact emod_eq_self _ _ hm (emod_nonneg x colorModuloM hm)
    (emod_lt x colorModuloM hm)

/-- C3: the quantization result lies in the half-open range `[0, 256/255)`:
for every real `x`, `0 ≤ color_modulo x < 256/255`. -/
theorem color_modulo_range (x : ℚ) :
    0 ≤ color_modulo x ∧ color_modulo x < 256 / 255 := by
  have hm := colorModuloM_pos
  rw [color_modulo_eq_emod x]
  refine ⟨emod_nonneg x colorModuloM hm, ?_⟩
  exact emod_lt x colorModuloM hm

/-- C4: on the concrete input `1.0`, the quantization returns `1.0`
(since `1 < 256/255`, the value is already inside the bucket); in
particular the result is not approximately `0.00392`. -/
theorem color_modulo_one : color_modulo 1 = 1 := by
  rw [color_modulo_eq_emod]
  refine emod_eq_self 1 colorModuloM colorModuloM_pos (by norm_num) ?_
  unfold colorModuloM
  norm_num

/-- C10: the double-precision overload of `color_modulo` narrows its input
to single precision and applies the float overload: for every narrowing
function and every input `x`,
`color_modulo_double narrow x = color_modulo (narrow x)`. -/
theorem color_modulo_double_narrows (narrow : ℚ → ℚ) (x : ℚ) :
    color_modulo_double narrow x = color_modulo (narrow x) := rfl

theorem initializeMesh_grid (p : PresetStateInputs) (s : PerPixelMeshState) :
    (InitializeMesh p s).gridSizeX = p.gridX ∧
    (InitializeMesh p s).gridSizeY = p.gridY ∧
    (InitializeMesh p s).viewportWidth = p.viewportWidth ∧
    (InitializeMesh p s).viewportHeight = p.viewportHeight := by
  unfold InitializeMesh
  by_cases hx : p.gridX = s.gridSizeX <;>
    by_cases hy : p.gridY = s.gridSizeY <;>
    by_cases hw : p.viewportWidth = s.viewportWidth <;>
    by_cases hh : p.viewportHeight = s.viewportHeight <;>
    simp [hx, hy, hw, hh]

theorem initializeMesh_counts (p : PresetStateInputs)
    (s : PerPixelMeshState) (h : sizeInvariant s) :
    (InitializeMesh p s).radiusAngleCount = p.gridX * p.gridY ∧
    (InitializeMesh p s).zoomRotWarpCount = p.gridX * p.gridY ∧
    (InitializeMesh p s).centerCount = p.gridX * p.gridY ∧
    (InitializeMesh p s).distanceCount = p.gridX * p.gridY ∧
    (InitializeMesh p s).stretchCount = p.gridX * p.gridY := by
  obtain ⟨h1, h2, h3, h4, h5⟩ := h
  unfold InitializeMesh
  by_cases hx : p.gridX = s.gridSizeX <;>
    by_cases hy : p.gridY = s.gridSizeY <;>
    by_cases hw : p.viewportWidth = s.viewportWidth <;>
    by_cases hh : p.viewportHeight = s.viewportHeight <;>
    simp [hx, hy, hw, hh, h1, h2, h3, h4, h5]

theorem initializeMesh_allocCount_of_unchanged (p : PresetStateInputs)
    (s : PerPixelMeshState)
    (hx : s.gridSizeX = p.gridX) (hy : s.gridSizeY = p.gridY)
    (hw : s.viewportWidth = p.viewportWidth)
    (hh : s.viewportHeight = p.viewportHeight) :
    (InitializeMesh p s).allocCount = s.allocCount := by
  unfold InitializeMesh
  simp [hx.symm, hy.symm, hw.symm, hh.symm]

theorem meshDraw_eq_initializeMesh (p : PresetStateInputs)
    (s : PerPixelMeshState) : MeshDraw p s = InitializeMesh p s := rfl

/-- C5: after every `InitializeMesh` call (from a state satisfying the class
invariant, which the freshly constructed state does), all five vertex
buffers hold exactly `gridSizeX * gridSizeY` elements; and two consecutive
`Draw` calls with unchanged resolution and viewport perform no reallocation
(the allocation counter does not move on the second call). -/
theorem perPixelMesh_buffer_invariant (p : PresetStateInputs)
    (s : PerPixelMeshState) (h : sizeInvariant s) :
    ((InitializeMesh p s).radiusAngleCount = p.gridX * p.gridY ∧
     (InitializeMesh p s).zoomRotWarpCount = p.gridX * p.gridY ∧
     (InitializeMesh p s).centerCount = p.gridX * p.gridY ∧
     (InitializeMesh p s).distanceCount = p.gridX * p.gridY ∧
     (InitializeMesh p s).stretchCount = p.gridX * p.gridY) ∧
    (∀ (q : PresetStateInputs) (t : PerPixelMeshState),
      (MeshDraw q (MeshDraw q t)).allocCount = (MeshDraw q t).allocCount) := by
  refine ⟨initializeMesh_counts p s h, ?_⟩
  intro q t
  rw [meshDraw_eq_initializeMesh q (MeshDraw q t),
    meshDraw_eq_initializeMesh q t]
  obtain ⟨hgx, hgy, hvw, hvh⟩ := initializeMesh_grid q t
  exact initializeMesh_allocCount_of_unchanged q (InitializeMesh q t)
    hgx hgy hvw hvh

theorem perPixelMesh_buffer_invariant_witness :
    ((InitializeMesh ⟨4, 4, 800, 600⟩ PerPixelMeshState.initial).radiusAngleCount
        = 4 * 4 ∧
      (InitializeMesh ⟨4, 4, 800, 600⟩ PerPixelMeshState.initial).zoomRotWarpCount
        = 4 * 4 ∧
      (InitializeMesh ⟨4, 4, 800, 600⟩ PerPixelMeshState.initial).centerCount
        = 4 * 4 ∧
      (InitializeMesh ⟨4, 4, 800, 600⟩ PerPixelMeshState.initial).distanceCount
        = 4 * 4 ∧
      (InitializeMesh ⟨4, 4, 800, 600⟩ PerPixelMeshState.initial).stretchCount
        = 4 * 4) ∧
    (∀ (q : PresetStateInputs) (t : PerPixelMeshState),
      (MeshDraw q (MeshDraw q t)).allocCount = (MeshDraw q t).allocCount) :=
  perPixelMesh_buffer_invariant ⟨4, 4, 800, 600⟩ PerPixelMeshState.initial
    (by decide)

/-- C6: when the custom warp shader fails to compile, `CompileWarpShader`
returns normally (never an error), and a subsequent `Draw` renders
successfully through the default warp shader path. -/
theorem compileWarpShader_graceful_fallback (s : WarpShaderState) :
    ∃ s', CompileWarpShader .compileError s = .ok s' ∧
      DrawRender s' = .ok .defaultShader := by
  refine ⟨{ s with customShaderCompiled := false }, rfl, ?_⟩
  unfold DrawRender WarpedBlitPath
  simp

/-- C7: the previous-frame texture sampler used during the warped blit is
clamp-to-edge with linear filtering in both the custom-shader and the
default-shader path. -/
theorem perPixelSampler_clamp_linear (path : DrawPath) :
    (samplerForPath path).wrapMode = TextureWrapMode.clampToEdge ∧
    (samplerForPath path).filter = TextureFilter.linear := by
  cases path <;> exact ⟨rfl, rfl⟩

/-- C8: the default implementation of `RenderItem::Init` is a no-op: for
any render item that does not override it, calling `Init` leaves all
observable state unchanged. -/
theorem renderItem_init_default_noop (σ : Type) (s : σ) :
    RenderItemInitDefault s = s := rfl

/-- C9: `PresetTransition::Draw` is an unimplemented stub: for every
combination of old preset, new preset, render context, audio data and
frame time, it emits no rendering commands and leaves the transition state
(duration, start time, random values, shader reference) unchanged. -/
theorem presetTransition_draw_stub (t : PresetTransitionState)
    (oldPreset newPreset renderContext : Nat) (audioData : List ℚ)
    (currentFrameTime : ℚ) :
    PresetTransitionDraw t oldPreset newPreset renderContext audioData
      currentFrameTime = (t, []) := rfl

end ProjectM
